import Mathlib

/-!
Shallow embedding of the Municode MCP server (`municode-mcp-server.py`):
the `MunicodeClient` request builders and the `handle_call_tool` tool
dispatcher, together with proofs of the behavioural claims about them.

The remote Municode service is modelled as an environment
`Env : HttpRequest → Except String JValue`: each outbound HTTP GET either
yields a parsed JSON body or raises (non-2xx status / transport failure).
Running a tool returns the sequence of outbound requests (the trace) next
to the produced content blocks, so "performs no further remote calls" is
the shape of the trace.
-/

namespace Municode

/-- Python/JSON values as they occur in this server: `None`, booleans,
integers, strings, lists and (insertion-ordered) dicts with string keys. -/
inductive JValue where
  | null : JValue
  | bool (b : Bool) : JValue
  | num (n : Int) : JValue
  | str (s : String) : JValue
  | arr (xs : List JValue) : JValue
  | obj (fs : List (String × JValue)) : JValue
  deriving Repr

/-- Python truthiness of a JSON value (`if client_id:`). -/
def JValue.truthy : JValue → Bool
  | .null => false
  | .bool b => b
  | .num n => n != 0
  | .str s => !s.isEmpty
  | .arr xs => !xs.isEmpty
  | .obj fs => !fs.isEmpty

/-- Four lowercase hex digits, as `json.dumps` writes in `\uXXXX` escapes. -/
def hex4 (n : Nat) : String :=
  let d := fun (k : Nat) =>
    if k < 10 then Char.ofNat (48 + k) else Char.ofNat (87 + k)
  String.mk [d (n / 4096 % 16), d (n / 256 % 16), d (n / 16 % 16), d (n % 16)]

/-- `json.dumps` escaping of one character (default `ensure_ascii=True`). -/
def jsonEscapeChar (c : Char) : String :=
  if c = '"' then "\\\""
  else if c = '\\' then "\\\\"
  else if c = '\n' then "\\n"
  else if c = '\r' then "\\r"
  else if c = '\t' then "\\t"
  else if c.toNat = 8 then "\\b"
  else if c.toNat = 12 then "\\f"
  else if c.toNat < 32 then "\\u" ++ hex4 c.toNat
  else if c.toNat < 127 then String.mk [c]
  else if c.toNat < 65536 then "\\u" ++ hex4 c.toNat
  else
    let m := c.toNat - 65536
    "\\u" ++ hex4 (55296 + m / 1024) ++ "\\u" ++ hex4 (56320 + m % 1024)

/-- A JSON string literal: quotes around the escaped characters. -/
def jsonQuote (s : String) : String :=
  "\"" ++ String.join (s.toList.map jsonEscapeChar) ++ "\""

/-- `lv` levels of two-space indentation (`json.dumps(..., indent=2)`). -/
def sp (lv : Nat) : String := String.mk (List.replicate (2 * lv) ' ')

mutual

/-- `json.dumps(v, indent=2)` rendered at indentation level `lv`. -/
def dumpVal : JValue → Nat → String
  | .null, _ => "null"
  | .bool true, _ => "true"
  | .bool false, _ => "false"
  | .num n, _ => toString n
  | .str s, _ => jsonQuote s
  | .arr [], _ => "[]"
  | .arr (x :: xs), lv =>
      "[\n" ++ dumpList x xs (lv + 1) ++ "\n" ++ sp lv ++ "]"
  | .obj [], _ => "\x7b\x7d"
  | .obj (f :: fs), lv =>
      "\x7b\n" ++ dumpFields f fs (lv + 1) ++ "\n" ++ sp lv ++ "\x7d"
termination_by v _ => sizeOf v
decreasing_by all_goals (simp_wf; try omega)

/-- Comma-and-newline separated list items, each indented. -/
def dumpList : JValue → List JValue → Nat → String
  | x, [], lv => sp lv ++ dumpVal x lv
  | x, y :: ys, lv => sp lv ++ dumpVal x lv ++ ",\n" ++ dumpList y ys lv
termination_by x xs _ => sizeOf x + sizeOf xs
decreasing_by all_goals (simp_wf; try omega)

/-- Comma-and-newline separated `"key": value` dict items, each indented. -/
def dumpFields : (String × JValue) → List (String × JValue) → Nat → String
  | (k, v), [], lv => sp lv ++ jsonQuote k ++ ": " ++ dumpVal v lv
  | (k, v), f :: fs, lv =>
      sp lv ++ jsonQuote k ++ ": " ++ dumpVal v lv ++ ",\n" ++ dumpFields f fs lv
termination_by f fs _ => sizeOf f + sizeOf fs
decreasing_by all_goals (simp_wf; try omega)

end

/-- `json.dumps(v, indent=2)` as used throughout the tool dispatcher. -/
def json_dumps (v : JValue) : String := dumpVal v 0

mutual

/-- Python `repr` of a value, as f-string interpolation renders containers.
String escaping inside `repr` is approximated (claims never depend on it). -/
def pyRepr : JValue → String
  | .null => "None"
  | .bool true => "True"
  | .bool false => "False"
  | .num n => toString n
  | .str s => "'" ++ s ++ "'"
  | .arr [] => "[]"
  | .arr (x :: xs) => "[" ++ pyReprList x xs ++ "]"
  | .obj [] => "\x7b\x7d"
  | .obj (f :: fs) => "\x7b" ++ pyReprFields f fs ++ "\x7d"
termination_by v => sizeOf v
decreasing_by all_goals (simp_wf; try omega)

/-- Comma-separated `repr`s of list elements. -/
def pyReprList : JValue → List JValue → String
  | x, [] => pyRepr x
  | x, y :: ys => pyRepr x ++ ", " ++ pyReprList y ys
termination_by x xs => sizeOf x + sizeOf xs
decreasing_by all_goals (simp_wf; try omega)

/-- Comma-separated `repr`s of dict items. -/
def pyReprFields : (String × JValue) → List (String × JValue) → String
  | (k, v), [] => "'" ++ k ++ "': " ++ pyRepr v
  | (k, v), f :: fs => "'" ++ k ++ "': " ++ pyRepr v ++ ", " ++ pyReprFields f fs
termination_by f fs => sizeOf f + sizeOf fs
decreasing_by all_goals (simp_wf; try omega)

end

/-- Python `str()` of a value, as f-strings interpolate it: strings pass
through unquoted, other scalars render as Python spells them, containers
render as their `repr`. -/
def pyStr : JValue → String
  | .str s => s
  | .null => "None"
  | .bool true => "True"
  | .bool false => "False"
  | .num n => toString n
  | v => pyRepr v

/-- The Python type name of a value, as it appears in error messages. -/
def pyTypeName : JValue → String
  | .null => "NoneType"
  | .bool _ => "bool"
  | .num _ => "int"
  | .str _ => "str"
  | .arr _ => "list"
  | .obj _ => "dict"

/-- `str(AttributeError(...))` for `v.<attr>` on a value without that attribute. -/
def noAttrMsg (v : JValue) (attr : String) : String :=
  "'" ++ pyTypeName v ++ "' object has no attribute '" ++ attr ++ "'"

/-- `str(KeyError(k))`: Python renders the missing key in quotes. -/
def keyErrMsg (k : String) : String := "'" ++ k ++ "'"

/-- `d[k]` on the tool-call argument mapping: the value, or a `KeyError`. -/
def getItem (args : List (String × JValue)) (k : String) : Except String JValue :=
  match args.lookup k with
  | some v => .ok v
  | none => .error (keyErrMsg k)

/-- `v.get(k)` (single-argument dict `get`, defaulting to `None`); on a
non-dict value Python raises `AttributeError`. -/
def pyGet1 (v : JValue) (k : String) : Except String JValue :=
  match v with
  | .obj fs => .ok ((fs.lookup k).getD .null)
  | _ => .error (noAttrMsg v "get")

/-- `v.get(k, default)`; on a non-dict value Python raises `AttributeError`. -/
def pyGetD (v : JValue) (k : String) (d : JValue) : Except String JValue :=
  match v with
  | .obj fs => .ok ((fs.lookup k).getD d)
  | _ => .error (noAttrMsg v "get")

/-- `s.upper()` on a string (ASCII case mapping). -/
def strUpper (s : String) : String := String.mk (s.toList.map Char.toUpper)

/-- `s.lower()` on a string (ASCII case mapping). -/
def strLower (s : String) : String := String.mk (s.toList.map Char.toLower)

/-- Strip `pat` from the front of `s`, when it is a prefix. -/
def dropPre : List Char → List Char → Option (List Char)
  | [], s => some s
  | _, [] => none
  | p :: ps, c :: cs => if p = c then dropPre ps cs else none

/-- Left-to-right non-overlapping replacement of `pat` by `rep`; the fuel
(initially the text's length) bounds the number of characters consumed and
suffices because each step consumes at least one character of a non-empty
pattern or of the text. -/
def replaceFuel (pat rep : List Char) : Nat → List Char → List Char
  | 0, s => s
  | _ + 1, [] => []
  | fuel + 1, c :: rest =>
    match dropPre pat (c :: rest) with
    | some rem => rep ++ replaceFuel pat rep fuel rem
    | none => c :: replaceFuel pat rep fuel rest

/-- `s.replace(pat, rep)` for a non-empty pattern, Python's left-to-right
non-overlapping semantics (the dispatcher only ever replaces `" "` and
`","`, so the empty-pattern case never arises and is passed through). -/
def strReplace (s pat rep : String) : String :=
  if pat.isEmpty then s
  else String.mk (replaceFuel pat.toList rep.toList s.toList.length s.toList)

/-- `v.upper()`: only strings have the attribute. -/
def pyUpper (v : JValue) : Except String String :=
  match v with
  | .str s => .ok (strUpper s)
  | _ => .error (noAttrMsg v "upper")

/-- `v.lower()`: only strings have the attribute. -/
def pyLower (v : JValue) : Except String String :=
  match v with
  | .str s => .ok (strLower s)
  | _ => .error (noAttrMsg v "lower")

/-- `for x in v`: lists iterate their elements, dicts their keys, strings
their characters; other values raise `TypeError`. -/
def pyIter (v : JValue) : Except String (List JValue) :=
  match v with
  | .arr xs => .ok xs
  | .obj fs => .ok (fs.map (fun f => .str f.1))
  | .str s => .ok (s.toList.map (fun c => .str (String.mk [c])))
  | _ => .error ("'" ++ pyTypeName v ++ "' object is not iterable")

/-- Boolean substring test: Python's `pat in s` on strings. -/
def substrB (pat s : String) : Bool := decide (List.IsInfix pat.toList s.toList)

/-- One content block of a tool response; the server only ever builds
`TextContent(type="text", text=...)`. -/
structure TextContent where
  type : String
  text : String
  deriving Repr

/-- An outbound HTTP GET: target URL and query parameters in order. -/
structure HttpRequest where
  url : String
  params : List (String × JValue)
  deriving Repr

/-- The remote Municode service: each request either yields a parsed JSON
body, or raises (`raise_for_status` on a non-2xx reply, or a transport
failure), modelled as an error message. -/
def Env : Type := HttpRequest → Except String JValue

/-- The requests issued so far by one tool invocation, in order. -/
def Trace : Type := List HttpRequest

def MUNICODE_API_BASE : String := "https://api.municode.com"
def MUNICODE_LIBRARY_BASE : String := "https://library.municode.com"

namespace MunicodeClient

/-- `GET /States/abbr?stateAbbr=...`. -/
def get_states (state_abbr : String) : HttpRequest :=
  ⟨MUNICODE_API_BASE ++ "/States/abbr", [("stateAbbr", .str state_abbr)]⟩

/-- `GET /Clients/stateAbbr?stateAbbr=...`. -/
def get_clients_by_state (state_abbr : String) : HttpRequest :=
  ⟨MUNICODE_API_BASE ++ "/Clients/stateAbbr", [("stateAbbr", .str state_abbr)]⟩

/-- `GET /Clients/name?clientName=...&stateAbbr=...`; the client name is
whatever value the caller supplied for `municipality_name`. -/
def get_client_by_name (client_name : JValue) (state_abbr : String) : HttpRequest :=
  ⟨MUNICODE_API_BASE ++ "/Clients/name",
   [("clientName", client_name), ("stateAbbr", .str state_abbr)]⟩

/-- `GET /ClientContent/{client_id}`: the id is interpolated into the path. -/
def get_client_content (client_id : JValue) : HttpRequest :=
  ⟨MUNICODE_API_BASE ++ "/ClientContent/" ++ pyStr client_id, []⟩

/-- `GET /Products/name?clientId=...&productName=...` (declared by the
client class; the dispatcher never calls it). -/
def get_product_by_name (client_id product_name : JValue) : HttpRequest :=
  ⟨MUNICODE_API_BASE ++ "/Products/name",
   [("clientId", client_id), ("productName", product_name)]⟩

/-- `GET /Jobs/latest/{job_id}` (declared by the client class; the
dispatcher never calls it). -/
def get_latest_job (job_id : JValue) : HttpRequest :=
  ⟨MUNICODE_API_BASE ++ "/Jobs/latest/" ++ pyStr job_id, []⟩

/-- `GET /codesToc/children?jobId=...&productId=...&nodeId=...`. -/
def get_toc_children (job_id product_id node_id : JValue) : HttpRequest :=
  ⟨MUNICODE_API_BASE ++ "/codesToc/children",
   [("jobId", job_id), ("productId", product_id), ("nodeId", node_id)]⟩

/-- `GET /CodesContent?jobId=...&productId=...&nodeId=...`. -/
def get_codes_content (job_id product_id node_id : JValue) : HttpRequest :=
  ⟨MUNICODE_API_BASE ++ "/CodesContent",
   [("jobId", job_id), ("productId", product_id), ("nodeId", node_id)]⟩

/-- `GET /search?...`: the caller-supplied parameters followed by the fixed
constants the method always transmits. -/
def search_munidocs (client_id search_text page_num page_size titles_only
    is_advanced : JValue) : HttpRequest :=
  ⟨MUNICODE_API_BASE ++ "/search",
   [("clientId", client_id),
    ("searchText", search_text),
    ("pageNum", page_num),
    ("pageSize", page_size),
    ("titlesOnly", titles_only),
    ("isAdvanced", is_advanced),
    ("isAutocomplete", .bool false),
    ("mode", .str "standard"),
    ("sort", .num 0),
    ("fragmentSize", .num 200),
    ("contentTypeId", .str ""),
    ("stateId", .num 0)]⟩

end MunicodeClient

/-- One content block with `type="text"`. -/
def textBlock (s : String) : TextContent := ⟨"text", s⟩

/-- The reduced projection `list_municipalities` builds for one municipality
record (each field via dict `get`, `ClientName` defaulting to `"Unknown"`). -/
def formatClient (c : JValue) : Except String JValue := do
  let name ← pyGetD c "ClientName" (.str "Unknown")
  let id ← pyGet1 c "ClientID"
  let pop ← pyGet1 c "PopRangeId"
  let cls ← pyGet1 c "ClassificationId"
  let web ← pyGet1 c "Website"
  let city ← pyGet1 c "City"
  let zip ← pyGet1 c "ZipCode"
  pure (.obj [("name", name), ("id", id), ("population_range", pop),
              ("classification", cls), ("website", web), ("city", city),
              ("zip_code", zip)])

/-- The loop-body test `"code" in product.get("ProductName", "").lower()`. -/
def productCheck (p : JValue) : Except String Bool := do
  let pn ← pyGetD p "ProductName" (.str "")
  let low ← pyLower pn
  pure (substrB "code" low)

/-- The product-selection loop: the first product whose name contains
`"code"` case-insensitively, `none` when no product matches, propagating
any error the test raises. -/
def firstCodeProduct : List JValue → Except String (Option JValue)
  | [] => .ok none
  | p :: rest =>
    match productCheck p with
    | .error e => .error e
    | .ok true => .ok (some p)
    | .ok false => firstCodeProduct rest

/-- The not-found early return shared by `get_code_structure`,
`get_code_section` and `search_municipal_codes`. -/
def notFoundText (mn : JValue) (sa : String) : String :=
  "Municipality '" ++ pyStr mn ++ "' not found in " ++ sa

/-- The remote fetch of `get_states_info`, entered with the uppercased
state abbreviation. -/
def gsi_chain (env : Env) (state_abbr : String) :
    Trace × Except String (List TextContent) :=
  let r := MunicodeClient.get_states state_abbr
  match env r with
  | .error e => ([r], .error e)
  | .ok result => ([r], .ok [textBlock (json_dumps result)])

/-- The `get_states_info` branch of `handle_call_tool`. -/
def tool_get_states_info (env : Env) (args : List (String × JValue)) :
    Trace × Except String (List TextContent) :=
  match getItem args "state_abbr" with
  | .error e => ([], .error e)
  | .ok v =>
  match pyUpper v with
  | .error e => ([], .error e)
  | .ok state_abbr => gsi_chain env state_abbr

/-- The fetch-and-reshape of `list_municipalities`, entered with the
uppercased state abbreviation. -/
def glm_chain (env : Env) (state_abbr : String) :
    Trace × Except String (List TextContent) :=
  let r := MunicodeClient.get_clients_by_state state_abbr
  match env r with
  | .error e => ([r], .error e)
  | .ok clients =>
  match pyIter clients with
  | .error e => ([r], .error e)
  | .ok cs =>
  match cs.mapM formatClient with
  | .error e => ([r], .error e)
  | .ok formatted =>
    ([r], .ok [textBlock ("Found " ++ toString formatted.length ++
      " municipalities in " ++ state_abbr ++ ":\n\n" ++
      json_dumps (.arr formatted))])

/-- The `list_municipalities` branch of `handle_call_tool`. -/
def tool_list_municipalities (env : Env) (args : List (String × JValue)) :
    Trace × Except String (List TextContent) :=
  match getItem args "state_abbr" with
  | .error e => ([], .error e)
  | .ok v =>
  match pyUpper v with
  | .error e => ([], .error e)
  | .ok state_abbr => glm_chain env state_abbr

/-- The lookup-then-fetch chain of `get_municipality_info`, entered with the
parsed arguments (`sa` already uppercased). -/
def gmi_chain (env : Env) (mn : JValue) (sa : String) :
    Trace × Except String (List TextContent) :=
  let r1 := MunicodeClient.get_client_by_name mn sa
  match env r1 with
  | .error e => ([r1], .error e)
  | .ok client_info =>
  match pyGet1 client_info "ClientID" with
  | .error e => ([r1], .error e)
  | .ok client_id =>
  if client_id.truthy then
    let r2 := MunicodeClient.get_client_content client_id
    match env r2 with
    | .error e => ([r1, r2], .error e)
    | .ok client_content =>
      ([r1, r2], .ok [textBlock (json_dumps (.obj
        [("client_info", client_info),
         ("available_products", client_content)]))])
  else
    ([r1], .ok [textBlock (json_dumps (.obj [("client_info", client_info)]))])

/-- The `get_municipality_info` branch of `handle_call_tool`. -/
def tool_get_municipality_info (env : Env) (args : List (String × JValue)) :
    Trace × Except String (List TextContent) :=
  match getItem args "municipality_name" with
  | .error e => ([], .error e)
  | .ok mn =>
  match getItem args "state_abbr" with
  | .error e => ([], .error e)
  | .ok v =>
  match pyUpper v with
  | .error e => ([], .error e)
  | .ok sa => gmi_chain env mn sa

/-- The lookup/products/table-of-contents chain of `get_code_structure`,
entered with the parsed arguments. -/
def gcs_chain (env : Env) (mn : JValue) (sa : String) (node_id : JValue) :
    Trace × Except String (List TextContent) :=
  let r1 := MunicodeClient.get_client_by_name mn sa
  match env r1 with
  | .error e => ([r1], .error e)
  | .ok client_info =>
  match pyGet1 client_info "ClientID" with
  | .error e => ([r1], .error e)
  | .ok client_id =>
  if !client_id.truthy then
    ([r1], .ok [textBlock (notFoundText mn sa)])
  else
    let r2 := MunicodeClient.get_client_content client_id
    match env r2 with
    | .error e => ([r1, r2], .error e)
    | .ok client_content =>
    match pyIter client_content with
    | .error e => ([r1, r2], .error e)
    | .ok products =>
    match firstCodeProduct products with
    | .error e => ([r1, r2], .error e)
    | .ok none =>
      ([r1, r2], .ok [textBlock "No code of ordinances found for this municipality"])
    | .ok (some code_product) =>
    match pyGet1 code_product "Id" with
    | .error e => ([r1, r2], .error e)
    | .ok job_id =>
    match pyGet1 code_product "ProductID" with
    | .error e => ([r1, r2], .error e)
    | .ok product_id =>
    let r3 := MunicodeClient.get_toc_children job_id product_id node_id
    match env r3 with
    | .error e => ([r1, r2, r3], .error e)
    | .ok toc =>
      ([r1, r2, r3], .ok [textBlock ("Code structure for " ++ pyStr mn ++
        ", " ++ sa ++ ":\n\n" ++ json_dumps toc)])

/-- The `get_code_structure` branch of `handle_call_tool`: `node_id`
defaults to `"10121"` when absent. -/
def tool_get_code_structure (env : Env) (args : List (String × JValue)) :
    Trace × Except String (List TextContent) :=
  match getItem args "municipality_name" with
  | .error e => ([], .error e)
  | .ok mn =>
  match getItem args "state_abbr" with
  | .error e => ([], .error e)
  | .ok v =>
  match pyUpper v with
  | .error e => ([], .error e)
  | .ok sa => gcs_chain env mn sa ((args.lookup "node_id").getD (.str "10121"))

/-- The lookup/products/content chain of `get_code_section`, entered with
the parsed arguments. -/
def gsec_chain (env : Env) (mn : JValue) (sa : String) (node_id : JValue) :
    Trace × Except String (List TextContent) :=
  let r1 := MunicodeClient.get_client_by_name mn sa
  match env r1 with
  | .error e => ([r1], .error e)
  | .ok client_info =>
  match pyGet1 client_info "ClientID" with
  | .error e => ([r1], .error e)
  | .ok client_id =>
  if !client_id.truthy then
    ([r1], .ok [textBlock (notFoundText mn sa)])
  else
    let r2 := MunicodeClient.get_client_content client_id
    match env r2 with
    | .error e => ([r1, r2], .error e)
    | .ok client_content =>
    match pyIter client_content with
    | .error e => ([r1, r2], .error e)
    | .ok products =>
    match firstCodeProduct products with
    | .error e => ([r1, r2], .error e)
    | .ok none =>
      ([r1, r2], .ok [textBlock "No code of ordinances found for this municipality"])
    | .ok (some code_product) =>
    match pyGet1 code_product "Id" with
    | .error e => ([r1, r2], .error e)
    | .ok job_id =>
    match pyGet1 code_product "ProductID" with
    | .error e => ([r1, r2], .error e)
    | .ok product_id =>
    let r3 := MunicodeClient.get_codes_content job_id product_id node_id
    match env r3 with
    | .error e => ([r1, r2, r3], .error e)
    | .ok content =>
      ([r1, r2, r3], .ok [textBlock ("Content for node " ++ pyStr node_id ++
        " in " ++ pyStr mn ++ ", " ++ sa ++ ":\n\n" ++ json_dumps content)])

/-- The `get_code_section` branch of `handle_call_tool`: `node_id` is
mandatory (`arguments["node_id"]`). -/
def tool_get_code_section (env : Env) (args : List (String × JValue)) :
    Trace × Except String (List TextContent) :=
  match getItem args "municipality_name" with
  | .error e => ([], .error e)
  | .ok mn =>
  match getItem args "state_abbr" with
  | .error e => ([], .error e)
  | .ok v =>
  match pyUpper v with
  | .error e => ([], .error e)
  | .ok sa =>
  match getItem args "node_id" with
  | .error e => ([], .error e)
  | .ok node_id => gsec_chain env mn sa node_id

/-- The lookup-then-search chain of `search_municipal_codes`, entered with
the parsed arguments; `is_advanced` is left at the client method's `False`
default. -/
def search_chain (env : Env) (mn : JValue) (sa : String)
    (search_query page_size page_number titles_only : JValue) :
    Trace × Except String (List TextContent) :=
  let r1 := MunicodeClient.get_client_by_name mn sa
  match env r1 with
  | .error e => ([r1], .error e)
  | .ok client_info =>
  match pyGet1 client_info "ClientID" with
  | .error e => ([r1], .error e)
  | .ok client_id =>
  if !client_id.truthy then
    ([r1], .ok [textBlock (notFoundText mn sa)])
  else
    let r2 := MunicodeClient.search_munidocs client_id search_query
      page_number page_size titles_only (.bool false)
    match env r2 with
    | .error e => ([r1, r2], .error e)
    | .ok search_results =>
      ([r1, r2], .ok [textBlock ("Search results for '" ++ pyStr search_query ++
        "' in " ++ pyStr mn ++ ", " ++ sa ++ ":\n\n" ++
        json_dumps search_results)])

/-- The `search_municipal_codes` branch of `handle_call_tool`:
`page_size`, `page_number` and `titles_only` default to `10`, `1`, `False`. -/
def tool_search_municipal_codes (env : Env) (args : List (String × JValue)) :
    Trace × Except String (List TextContent) :=
  match getItem args "municipality_name" with
  | .error e => ([], .error e)
  | .ok mn =>
  match getItem args "state_abbr" with
  | .error e => ([], .error e)
  | .ok v =>
  match pyUpper v with
  | .error e => ([], .error e)
  | .ok sa =>
  match getItem args "search_query" with
  | .error e => ([], .error e)
  | .ok search_query =>
    search_chain env mn sa search_query
      ((args.lookup "page_size").getD (.num 10))
      ((args.lookup "page_number").getD (.num 1))
      ((args.lookup "titles_only").getD (.bool false))

/-- The slug-and-join of `get_municipality_url`, entered with the
lowercased state abbreviation: no remote call is made. -/
def gurl_core (mn : JValue) (state_abbr : String) :
    Trace × Except String (List TextContent) :=
  match pyLower mn with
  | .error e => ([], .error e)
  | .ok lowered =>
    let formatted_name := strReplace (strReplace lowered " " "_") "," ""
    let url := MUNICODE_LIBRARY_BASE ++ "/" ++ state_abbr ++ "/" ++
      formatted_name ++ "/codes/code_of_ordinances"
    ([], .ok [textBlock ("Municode Library URL for " ++ pyStr mn ++ ", " ++
      strUpper state_abbr ++ ":\n" ++ url)])

/-- The `get_municipality_url` branch of `handle_call_tool`: pure string
construction, no remote call. -/
def tool_get_municipality_url (args : List (String × JValue)) :
    Trace × Except String (List TextContent) :=
  match getItem args "municipality_name" with
  | .error e => ([], .error e)
  | .ok mn =>
  match getItem args "state_abbr" with
  | .error e => ([], .error e)
  | .ok v =>
  match pyLower v with
  | .error e => ([], .error e)
  | .ok state_abbr => gurl_core mn state_abbr

/-- The `if name == ... elif ...` dispatch of `handle_call_tool`, before the
surrounding `try/except`. -/
def dispatch_tool (env : Env) (name : String) (args : List (String × JValue)) :
    Trace × Except String (List TextContent) :=
  if name == "get_states_info" then tool_get_states_info env args
  else if name == "list_municipalities" then tool_list_municipalities env args
  else if name == "get_municipality_info" then tool_get_municipality_info env args
  else if name == "get_code_structure" then tool_get_code_structure env args
  else if name == "get_code_section" then tool_get_code_section env args
  else if name == "search_municipal_codes" then tool_search_municipal_codes env args
  else if name == "get_municipality_url" then tool_get_municipality_url args
  else ([], .ok [textBlock ("Unknown tool: " ++ name)])

/-- The surrounding `try/except Exception`: a raised exception becomes the
`"Error: ..."` text block, a normal return passes through. -/
def wrapErrors : Trace × Except String (List TextContent) → Trace × List TextContent
  | (t, .ok res) => (t, res)
  | (t, .error e) => (t, [textBlock ("Error: " ++ e)])

/-- `handle_call_tool`: the dispatch wrapped in the `try/except` that turns
any raised exception into an `"Error: ..."` text block. The first component
is the ordered trace of outbound remote requests. -/
def handle_call_tool (env : Env) (name : String)
    (args : List (String × JValue)) : Trace × List TextContent :=
  wrapErrors (dispatch_tool env name args)

/-! Concrete remote environments used to instantiate the theorems. -/

/-- A remote service whose municipality lookup returns a record with no
`ClientID` field at all; every other request fails. -/
def envEmptyClient : Env := fun r =>
  if r.url = MUNICODE_API_BASE ++ "/Clients/name" then .ok (.obj [])
  else .error "unexpected request"

/-- A remote service whose municipality lookup returns a record whose
`ClientID` field is present but `0`; every other request fails. -/
def envZeroClient : Env := fun r =>
  if r.url = MUNICODE_API_BASE ++ "/Clients/name" then
    .ok (.obj [("ClientID", .num 0)])
  else .error "unexpected request"

/-- A product that does not match the `"code"` filter. -/
def productAtlas : JValue :=
  .obj [("ProductName", .str "Zoning Atlas"), ("Id", .num 1), ("ProductID", .num 2)]

/-- The first product matching the `"code"` filter. -/
def productOrdinances : JValue :=
  .obj [("ProductName", .str "Code of Ordinances"), ("Id", .num 5), ("ProductID", .num 7)]

/-- A second, later product also matching the `"code"` filter. -/
def productBuilding : JValue :=
  .obj [("ProductName", .str "Building Code"), ("Id", .num 8), ("ProductID", .num 9)]

/-- A remote service with a found municipality (id `100`) subscribed to the
three products above; table-of-contents, content and search requests all
succeed with small payloads. -/
def envHappy : Env := fun r =>
  if r.url = MUNICODE_API_BASE ++ "/Clients/name" then
    .ok (.obj [("ClientID", .num 100)])
  else if r.url = MUNICODE_API_BASE ++ "/ClientContent/100" then
    .ok (.arr [productAtlas, productOrdinances, productBuilding])
  else if r.url = MUNICODE_API_BASE ++ "/codesToc/children" then
    .ok (.arr [])
  else if r.url = MUNICODE_API_BASE ++ "/CodesContent" then
    .ok (.obj [("Content", .str "sample")])
  else if r.url = MUNICODE_API_BASE ++ "/search" then
    .ok (.obj [("NumberOfHits", .num 0)])
  else .error "unexpected request"

/-- A remote service where every request fails, as a 500 reply surfaced by
`raise_for_status` does. -/
def envDown : Env := fun _ =>
  .error "Server error '500 Internal Server Error' for url 'https://api.municode.com/States/abbr'"

/-- Every successful outcome of one dispatch branch is a single text block. -/
def OkSingle (out : Trace × Except String (List TextContent)) : Prop :=
  ∀ t l, out = (t, .ok l) → ∃ s, l = [textBlock s]

/-! Helper lemmas. -/

theorem substrB_of_infix {p s : String} (h : List.IsInfix p.toList s.toList) :
    substrB p s = true := by
  simp [substrB]
  exact h

theorem notFound_contains_name (nm sa : String) :
    substrB nm (notFoundText (.str nm) sa) = true := by
  apply substrB_of_infix
  refine ⟨"Municipality '".toList, ("' not found in " ++ sa).toList, ?_⟩
  simp [notFoundText, pyStr, String.toList]

theorem notFound_contains_state (nm sa : String) :
    substrB sa (notFoundText (.str nm) sa) = true := by
  apply substrB_of_infix
  refine ⟨("Municipality '" ++ nm ++ "' not found in ").toList, [], ?_⟩
  simp [notFoundText, pyStr, String.toList]

theorem gsi_chain_single (env : Env) (s : String) : OkSingle (gsi_chain env s) := by
  intro t l hl
  simp only [gsi_chain] at hl
  repeat' split at hl
  all_goals simp_all [textBlock]
  all_goals exact ⟨_, hl.2.symm⟩

theorem glm_chain_single (env : Env) (s : String) : OkSingle (glm_chain env s) := by
  intro t l hl
  simp only [glm_chain] at hl
  repeat' split at hl
  all_goals simp_all [textBlock]
  all_goals exact ⟨_, hl.2.symm⟩

theorem gmi_chain_single (env : Env) (mn : JValue) (sa : String) :
    OkSingle (gmi_chain env mn sa) := by
  intro t l hl
  simp only [gmi_chain] at hl
  repeat' split at hl
  all_goals simp_all [textBlock]
  all_goals exact ⟨_, hl.2.symm⟩

theorem gcs_chain_single (env : Env) (mn : JValue) (sa : String) (node : JValue) :
    OkSingle (gcs_chain env mn sa node) := by
  intro t l hl
  simp only [gcs_chain] at hl
  repeat' split at hl
  all_goals simp_all [textBlock]
  all_goals exact ⟨_, hl.2.symm⟩

theorem gsec_chain_single (env : Env) (mn : JValue) (sa : String) (node : JValue) :
    OkSingle (gsec_chain env mn sa node) := by
  intro t l hl
  simp only [gsec_chain] at hl
  repeat' split at hl
  all_goals simp_all [textBlock]
  all_goals exact ⟨_, hl.2.symm⟩

theorem search_chain_single (env : Env) (mn : JValue) (sa : String)
    (q psz pn t_only : JValue) : OkSingle (search_chain env mn sa q psz pn t_only) := by
  intro t l hl
  simp only [search_chain] at hl
  repeat' split at hl
  all_goals simp_all [textBlock]
  all_goals exact ⟨_, hl.2.symm⟩

theorem gurl_core_single (mn : JValue) (sa : String) : OkSingle (gurl_core mn sa) := by
  intro t l hl
  simp only [gurl_core] at hl
  repeat' split at hl
  all_goals simp_all [textBlock]
  all_goals exact ⟨_, hl.2.symm⟩

theorem dispatch_tool_single (env : Env) (name : String)
    (args : List (String × JValue)) : OkSingle (dispatch_tool env name args) := by
  intro t l hl
  simp only [dispatch_tool, tool_get_states_info, tool_list_municipalities,
    tool_get_municipality_info, tool_get_code_structure, tool_get_code_section,
    tool_search_municipal_codes, tool_get_municipality_url] at hl
  repeat' split at hl
  all_goals first
    | exact gsi_chain_single _ _ _ _ hl
    | exact glm_chain_single _ _ _ _ hl
    | exact gmi_chain_single _ _ _ _ _ hl
    | exact gcs_chain_single _ _ _ _ _ _ hl
    | exact gsec_chain_single _ _ _ _ _ _ hl
    | exact search_chain_single _ _ _ _ _ _ _ _ _ hl
    | exact gurl_core_single _ _ _ _ hl
    | simp_all [textBlock]
  all_goals exact ⟨_, hl.2.symm⟩

/-! Evaluation lemmas: with string-valued arguments under the expected keys,
each tool branch reduces definitionally to its post-parsing chain. -/

theorem handle_gsi_eval (env : Env) (s : String) :
    handle_call_tool env "get_states_info" [("state_abbr", .str s)] =
    wrapErrors (gsi_chain env (strUpper s)) := rfl

theorem handle_glm_eval (env : Env) (s : String) :
    handle_call_tool env "list_municipalities" [("state_abbr", .str s)] =
    wrapErrors (glm_chain env (strUpper s)) := rfl

theorem handle_gmi_eval (env : Env) (nm s : String) :
    handle_call_tool env "get_municipality_info"
      [("municipality_name", .str nm), ("state_abbr", .str s)] =
    wrapErrors (gmi_chain env (.str nm) (strUpper s)) := rfl

theorem handle_gcs_eval (env : Env) (nm s : String) :
    handle_call_tool env "get_code_structure"
      [("municipality_name", .str nm), ("state_abbr", .str s)] =
    wrapErrors (gcs_chain env (.str nm) (strUpper s) (.str "10121")) := rfl

theorem handle_gcs_eval_node (env : Env) (nm s : String) (z : JValue) :
    handle_call_tool env "get_code_structure"
      [("municipality_name", .str nm), ("state_abbr", .str s), ("node_id", z)] =
    wrapErrors (gcs_chain env (.str nm) (strUpper s) z) := rfl

theorem handle_gsec_eval (env : Env) (nm s : String) (z : JValue) :
    handle_call_tool env "get_code_section"
      [("municipality_name", .str nm), ("state_abbr", .str s), ("node_id", z)] =
    wrapErrors (gsec_chain env (.str nm) (strUpper s) z) := rfl

theorem handle_search_eval (env : Env) (nm s : String) (q : JValue) :
    handle_call_tool env "search_municipal_codes"
      [("municipality_name", .str nm), ("state_abbr", .str s),
       ("search_query", q)] =
    wrapErrors (search_chain env (.str nm) (strUpper s) q
      (.num 10) (.num 1) (.bool false)) := rfl

theorem handle_search_eval_titles (env : Env) (nm s : String) (q : JValue) :
    handle_call_tool env "search_municipal_codes"
      [("municipality_name", .str nm), ("state_abbr", .str s),
       ("search_query", q), ("titles_only", .bool true)] =
    wrapErrors (search_chain env (.str nm) (strUpper s) q
      (.num 10) (.num 1) (.bool true)) := rfl

theorem handle_url_eval (env : Env) (nm s : String) :
    handle_call_tool env "get_municipality_url"
      [("municipality_name", .str nm), ("state_abbr", .str s)] =
    wrapErrors (gurl_core (.str nm) (strLower s)) := rfl

/-! Chain lemmas under hypotheses on the remote environment. -/

theorem gmi_chain_skip {env : Env} {mn : JValue} {sa : String} {ci cid : JValue}
    (h1 : env (MunicodeClient.get_client_by_name mn sa) = .ok ci)
    (h2 : pyGet1 ci "ClientID" = .ok cid)
    (h3 : cid.truthy = false) :
    gmi_chain env mn sa =
      ([MunicodeClient.get_client_by_name mn sa],
       .ok [textBlock (json_dumps (.obj [("client_info", ci)]))]) := by
  simp [gmi_chain, h1, h2, h3]

theorem gcs_chain_notfound {env : Env} {mn : JValue} {sa : String}
    {ci cid : JValue} (node : JValue)
    (h1 : env (MunicodeClient.get_client_by_name mn sa) = .ok ci)
    (h2 : pyGet1 ci "ClientID" = .ok cid)
    (h3 : cid.truthy = false) :
    gcs_chain env mn sa node =
      ([MunicodeClient.get_client_by_name mn sa],
       .ok [textBlock (notFoundText mn sa)]) := by
  simp [gcs_chain, h1, h2, h3]

theorem gsec_chain_notfound {env : Env} {mn : JValue} {sa : String}
    {ci cid : JValue} (node : JValue)
    (h1 : env (MunicodeClient.get_client_by_name mn sa) = .ok ci)
    (h2 : pyGet1 ci "ClientID" = .ok cid)
    (h3 : cid.truthy = false) :
    gsec_chain env mn sa node =
      ([MunicodeClient.get_client_by_name mn sa],
       .ok [textBlock (notFoundText mn sa)]) := by
  simp [gsec_chain, h1, h2, h3]

theorem search_chain_notfound {env : Env} {mn : JValue} {sa : String}
    {ci cid : JValue} (q psz pn t_only : JValue)
    (h1 : env (MunicodeClient.get_client_by_name mn sa) = .ok ci)
    (h2 : pyGet1 ci "ClientID" = .ok cid)
    (h3 : cid.truthy = false) :
    search_chain env mn sa q psz pn t_only =
      ([MunicodeClient.get_client_by_name mn sa],
       .ok [textBlock (notFoundText mn sa)]) := by
  simp [search_chain, h1, h2, h3]

theorem firstCodeProduct_first (ps₁ : List JValue) (p : JValue) (ps₂ : List JValue)
    (hskip : ∀ q ∈ ps₁, productCheck q = .ok false)
    (hp : productCheck p = .ok true) :
    firstCodeProduct (ps₁ ++ p :: ps₂) = .ok (some p) := by
  induction ps₁ with
  | nil => simp [firstCodeProduct, hp]
  | cons q qs ih =>
    have hq : productCheck q = .ok false := hskip q (List.mem_cons_self q qs)
    simpa [firstCodeProduct, hq] using
      ih (fun x hx => hskip x (List.mem_cons_of_mem q hx))

theorem gcs_chain_trace {env : Env} {mn : JValue} {sa : String}
    {ci cid cc p jid pid : JValue} {ps : List JValue} (node : JValue)
    (h1 : env (MunicodeClient.get_client_by_name mn sa) = .ok ci)
    (h2 : pyGet1 ci "ClientID" = .ok cid)
    (h3 : cid.truthy = true)
    (h4 : env (MunicodeClient.get_client_content cid) = .ok cc)
    (h5 : pyIter cc = .ok ps)
    (h6 : firstCodeProduct ps = .ok (some p))
    (h7 : pyGet1 p "Id" = .ok jid)
    (h8 : pyGet1 p "ProductID" = .ok pid) :
    (gcs_chain env mn sa node).1 =
      [MunicodeClient.get_client_by_name mn sa,
       MunicodeClient.get_client_content cid,
       MunicodeClient.get_toc_children jid pid node] := by
  simp only [gcs_chain, h1, h2, h3, h4, h5, h6, h7, h8]
  cases env (MunicodeClient.get_toc_children jid pid node) <;> simp

theorem gsec_chain_trace {env : Env} {mn : JValue} {sa : String}
    {ci cid cc p jid pid : JValue} {ps : List JValue} (node : JValue)
    (h1 : env (MunicodeClient.get_client_by_name mn sa) = .ok ci)
    (h2 : pyGet1 ci "ClientID" = .ok cid)
    (h3 : cid.truthy = true)
    (h4 : env (MunicodeClient.get_client_content cid) = .ok cc)
    (h5 : pyIter cc = .ok ps)
    (h6 : firstCodeProduct ps = .ok (some p))
    (h7 : pyGet1 p "Id" = .ok jid)
    (h8 : pyGet1 p "ProductID" = .ok pid) :
    (gsec_chain env mn sa node).1 =
      [MunicodeClient.get_client_by_name mn sa,
       MunicodeClient.get_client_content cid,
       MunicodeClient.get_codes_content jid pid node] := by
  simp only [gsec_chain, h1, h2, h3, h4, h5, h6, h7, h8]
  cases env (MunicodeClient.get_codes_content jid pid node) <;> simp

theorem search_chain_trace {env : Env} {mn : JValue} {sa : String}
    {ci cid : JValue} (q psz pn t_only : JValue)
    (h1 : env (MunicodeClient.get_client_by_name mn sa) = .ok ci)
    (h2 : pyGet1 ci "ClientID" = .ok cid)
    (h3 : cid.truthy = true) :
    (search_chain env mn sa q psz pn t_only).1 =
      [MunicodeClient.get_client_by_name mn sa,
       MunicodeClient.search_munidocs cid q pn psz t_only (.bool false)] := by
  simp only [search_chain, h1, h2, h3]
  cases env (MunicodeClient.search_munidocs cid q pn psz t_only (.bool false)) <;> simp

theorem wrapErrors_fst (x : Trace × Except String (List TextContent)) :
    (wrapErrors x).1 = x.1 := by
  rcases x with ⟨t, r⟩
  cases r <;> rfl

/-! The claims. -/

/-- C1, counterexample: with a remote lookup that yields no identifier
(record `\x7b\x7d`), `get_municipality_info` does not return a not-found
text containing the municipality name — it returns the raw lookup JSON,
whose text does not contain `"Norfolk"` at all. -/
theorem municipality_info_no_notfound_text :
    (handle_call_tool envEmptyClient "get_municipality_info"
      [("municipality_name", .str "Norfolk"), ("state_abbr", .str "VA")]).2 =
      [textBlock (json_dumps (.obj [("client_info", .obj [])]))] ∧
    json_dumps (.obj [("client_info", .obj [])]) =
      "\x7b\n  \"client_info\": \x7b\x7d\n\x7d" ∧
    substrB "Norfolk" "\x7b\n  \"client_info\": \x7b\x7d\n\x7d" = false := by
  refine ⟨rfl, ?_, by decide⟩
  simp [json_dumps, dumpVal, dumpFields, jsonQuote, jsonEscapeChar, sp]
  rfl

/-- C1, amended: when the remote lookup yields no truthy `ClientID`,
`get_code_structure`, `get_code_section` and `search_municipal_codes` each
return a not-found text containing the municipality name and the uppercased
state, performing no remote call after the lookup; `get_municipality_info`
also performs no further remote call but returns the raw lookup JSON
instead of a not-found text. -/
theorem lookup_miss_notfound_behaviour (env : Env) (nm st : String)
    (z q ci cid : JValue)
    (h1 : env (MunicodeClient.get_client_by_name (.str nm) (strUpper st)) = .ok ci)
    (h2 : pyGet1 ci "ClientID" = .ok cid)
    (h3 : cid.truthy = false) :
    handle_call_tool env "get_municipality_info"
        [("municipality_name", .str nm), ("state_abbr", .str st)] =
      ([MunicodeClient.get_client_by_name (.str nm) (strUpper st)],
       [textBlock (json_dumps (.obj [("client_info", ci)]))]) ∧
    handle_call_tool env "get_code_structure"
        [("municipality_name", .str nm), ("state_abbr", .str st)] =
      ([MunicodeClient.get_client_by_name (.str nm) (strUpper st)],
       [textBlock (notFoundText (.str nm) (strUpper st))]) ∧
    handle_call_tool env "get_code_section"
        [("municipality_name", .str nm), ("state_abbr", .str st), ("node_id", z)] =
      ([MunicodeClient.get_client_by_name (.str nm) (strUpper st)],
       [textBlock (notFoundText (.str nm) (strUpper st))]) ∧
    handle_call_tool env "search_municipal_codes"
        [("municipality_name", .str nm), ("state_abbr", .str st), ("search_query", q)] =
      ([MunicodeClient.get_client_by_name (.str nm) (strUpper st)],
       [textBlock (notFoundText (.str nm) (strUpper st))]) ∧
    substrB nm (notFoundText (.str nm) (strUpper st)) = true ∧
    substrB (strUpper st) (notFoundText (.str nm) (strUpper st)) = true := by
  refine ⟨?_, ?_, ?_, ?_, notFound_contains_name nm (strUpper st),
    notFound_contains_state nm (strUpper st)⟩
  · rw [handle_gmi_eval, gmi_chain_skip h1 h2 h3]
    rfl
  · rw [handle_gcs_eval, gcs_chain_notfound _ h1 h2 h3]
    rfl
  · rw [handle_gsec_eval, gsec_chain_notfound _ h1 h2 h3]
    rfl
  · rw [handle_search_eval, search_chain_notfound _ _ _ _ h1 h2 h3]
    rfl

/-- C1, witness for the amended theorem at a concrete missing
municipality. -/
theorem lookup_miss_notfound_behaviour_witness :
    handle_call_tool envEmptyClient "get_code_structure"
      [("municipality_name", .str "Norfolk"), ("state_abbr", .str "VA")] =
    ([MunicodeClient.get_client_by_name (.str "Norfolk") "VA"],
     [textBlock "Municipality 'Norfolk' not found in VA"]) :=
  (lookup_miss_notfound_behaviour envEmptyClient "Norfolk" "VA"
    (.str "10121") (.str "zoning") (.obj []) .null rfl rfl rfl).2.1

/-- C2: any exception raised in the dispatch chain — including a non-2xx
status or transport failure from the remote client — is caught at the
dispatch boundary and becomes a text response `"Error: " ++ e`; no
exception propagates out of `handle_call_tool` (its result type is a plain
trace/content pair). -/
theorem dispatch_error_boundary (env : Env) (name : String)
    (args : List (String × JValue)) (t : Trace) (e : String)
    (h : dispatch_tool env name args = (t, .error e)) :
    handle_call_tool env name args = (t, [textBlock ("Error: " ++ e)]) := by
  rw [handle_call_tool, h]
  rfl

/-- C2, witness: a simulated 500 on `get_states_info` becomes an
`Error: ...` text response. -/
theorem dispatch_error_boundary_witness :
    handle_call_tool envDown "get_states_info" [("state_abbr", .str "VA")] =
      ([MunicodeClient.get_states "VA"],
       [textBlock "Error: Server error '500 Internal Server Error' for url 'https://api.municode.com/States/abbr'"]) :=
  dispatch_error_boundary envDown "get_states_info" [("state_abbr", .str "VA")]
    [MunicodeClient.get_states "VA"]
    "Server error '500 Internal Server Error' for url 'https://api.municode.com/States/abbr'"
    rfl

set_option linter.unusedVariables false in
/-- C3: when the subscribed-products fetch returns several products whose
`ProductName` contains `"code"` case-insensitively, the first one in
sequence order is selected, and its `Id` and `ProductID` fields are the
ones passed to the subsequent table-of-contents (`get_code_structure`) or
content (`get_code_section`) call. -/
theorem first_code_product_selected (env : Env) (nm st : String)
    (z ci cid : JValue) (ps₁ : List JValue) (p : JValue) (ps₂ : List JValue)
    (jid pid : JValue)
    (h1 : env (MunicodeClient.get_client_by_name (.str nm) (strUpper st)) = .ok ci)
    (h2 : pyGet1 ci "ClientID" = .ok cid)
    (h3 : cid.truthy = true)
    (h4 : env (MunicodeClient.get_client_content cid) = .ok (.arr (ps₁ ++ p :: ps₂)))
    (h5 : ∀ x ∈ ps₁, productCheck x = .ok false)
    (h6 : productCheck p = .ok true)
    (h7 : ∃ x ∈ ps₂, productCheck x = .ok true)
    (h8 : pyGet1 p "Id" = .ok jid)
    (h9 : pyGet1 p "ProductID" = .ok pid) :
    firstCodeProduct (ps₁ ++ p :: ps₂) = .ok (some p) ∧
    (handle_call_tool env "get_code_structure"
        [("municipality_name", .str nm), ("state_abbr", .str st)]).1 =
      [MunicodeClient.get_client_by_name (.str nm) (strUpper st),
       MunicodeClient.get_client_content cid,
       MunicodeClient.get_toc_children jid pid (.str "10121")] ∧
    (handle_call_tool env "get_code_section"
        [("municipality_name", .str nm), ("state_abbr", .str st), ("node_id", z)]).1 =
      [MunicodeClient.get_client_by_name (.str nm) (strUpper st),
       MunicodeClient.get_client_content cid,
       MunicodeClient.get_codes_content jid pid z] := by
  have hfst := firstCodeProduct_first ps₁ p ps₂ h5 h6
  refine ⟨hfst, ?_, ?_⟩
  · rw [handle_gcs_eval, wrapErrors_fst]
    exact gcs_chain_trace _ h1 h2 h3 h4 rfl hfst h8 h9
  · rw [handle_gsec_eval, wrapErrors_fst]
    exact gsec_chain_trace _ h1 h2 h3 h4 rfl hfst h8 h9

/-- C3, witness: with three subscribed products of which the second and
third both match `"code"`, the second (first matching) product's `Id = 5`
and `ProductID = 7` drive the table-of-contents call. -/
theorem first_code_product_selected_witness :
    (handle_call_tool envHappy "get_code_structure"
        [("municipality_name", .str "Norfolk"), ("state_abbr", .str "VA")]).1 =
      [MunicodeClient.get_client_by_name (.str "Norfolk") "VA",
       MunicodeClient.get_client_content (.num 100),
       MunicodeClient.get_toc_children (.num 5) (.num 7) (.str "10121")] :=
  (first_code_product_selected envHappy "Norfolk" "VA" (.str "42")
    (.obj [("ClientID", .num 100)]) (.num 100)
    [productAtlas] productOrdinances [productBuilding] (.num 5) (.num 7)
    rfl rfl rfl (by rfl)
    (by intro x hx; rw [List.mem_singleton] at hx; subst hx; rfl)
    rfl ⟨productBuilding, by simp, rfl⟩ rfl rfl).2.1

/-- C4: the full-text search method always transmits the fixed constants
`isAutocomplete=false`, `mode="standard"`, `sort=0`, `fragmentSize=200`,
`contentTypeId=""` and `stateId=0` alongside the caller-supplied
parameters; and `search_municipal_codes` with `titles_only=true` forwards
`titlesOnly=true` in the outbound query while `isAdvanced` stays `false`. -/
theorem search_query_constants :
    (∀ cid q pn psz t_only adv : JValue,
      (MunicodeClient.search_munidocs cid q pn psz t_only adv).params =
        [("clientId", cid), ("searchText", q), ("pageNum", pn),
         ("pageSize", psz), ("titlesOnly", t_only), ("isAdvanced", adv),
         ("isAutocomplete", .bool false), ("mode", .str "standard"),
         ("sort", .num 0), ("fragmentSize", .num 200),
         ("contentTypeId", .str ""), ("stateId", .num 0)]) ∧
    ∀ (env : Env) (nm st : String) (q ci cid : JValue),
      env (MunicodeClient.get_client_by_name (.str nm) (strUpper st)) = .ok ci →
      pyGet1 ci "ClientID" = .ok cid →
      cid.truthy = true →
      (handle_call_tool env "search_municipal_codes"
        [("municipality_name", .str nm), ("state_abbr", .str st),
         ("search_query", q), ("titles_only", .bool true)]).1 =
        [MunicodeClient.get_client_by_name (.str nm) (strUpper st),
         MunicodeClient.search_munidocs cid q (.num 1) (.num 10)
           (.bool true) (.bool false)] := by
  refine ⟨fun _ _ _ _ _ _ => rfl, ?_⟩
  intro env nm st q ci cid h1 h2 h3
  rw [handle_search_eval_titles, wrapErrors_fst]
  exact search_chain_trace _ _ _ _ h1 h2 h3

/-- C4, witness: a concrete `titles_only=true` search against a found
municipality issues the search request with `titlesOnly=true` and
`isAdvanced=false`. -/
theorem search_query_constants_witness :
    (handle_call_tool envHappy "search_municipal_codes"
      [("municipality_name", .str "Norfolk"), ("state_abbr", .str "VA"),
       ("search_query", .str "dogs"), ("titles_only", .bool true)]).1 =
      [MunicodeClient.get_client_by_name (.str "Norfolk") "VA",
       MunicodeClient.search_munidocs (.num 100) (.str "dogs") (.num 1)
         (.num 10) (.bool true) (.bool false)] :=
  search_query_constants.2 envHappy "Norfolk" "VA" (.str "dogs")
    (.obj [("ClientID", .num 100)]) (.num 100) rfl rfl rfl

/-- C5: `get_municipality_url` performs no remote call (empty trace for
every environment) and deterministically lowercases the state, slugifies
the municipality name (lowercase, spaces to underscores, commas stripped)
and joins the library base with the constant
`codes/code_of_ordinances` suffix; in particular `("Norfolk", "VA")` and
`("Example City, Town", "TX")` give the two expected URLs. -/
theorem municipality_url_pure :
    (∀ (env : Env) (nm st : String),
      handle_call_tool env "get_municipality_url"
        [("municipality_name", .str nm), ("state_abbr", .str st)] =
      ([], [textBlock ("Municode Library URL for " ++ nm ++ ", " ++
         strUpper (strLower st) ++ ":\n" ++ (MUNICODE_LIBRARY_BASE ++ "/" ++
         strLower st ++ "/" ++
         strReplace (strReplace (strLower nm) " " "_") "," "" ++
         "/codes/code_of_ordinances"))])) ∧
    handle_call_tool envDown "get_municipality_url"
      [("municipality_name", .str "Norfolk"), ("state_abbr", .str "VA")] =
      ([], [textBlock "Municode Library URL for Norfolk, VA:\nhttps://library.municode.com/va/norfolk/codes/code_of_ordinances"]) ∧
    handle_call_tool envDown "get_municipality_url"
      [("municipality_name", .str "Example City, Town"), ("state_abbr", .str "TX")] =
      ([], [textBlock "Municode Library URL for Example City, Town, TX:\nhttps://library.municode.com/tx/example_city_town/codes/code_of_ordinances"]) :=
  ⟨fun _ _ _ => rfl, rfl, rfl⟩

/-- C6: a tool name that is none of the seven registered names returns the
`Unknown tool: <name>` text without raising and with no remote call
(empty trace). -/
theorem unknown_tool_inert (env : Env) (name : String)
    (args : List (String × JValue))
    (h1 : name ≠ "get_states_info") (h2 : name ≠ "list_municipalities")
    (h3 : name ≠ "get_municipality_info") (h4 : name ≠ "get_code_structure")
    (h5 : name ≠ "get_code_section") (h6 : name ≠ "search_municipal_codes")
    (h7 : name ≠ "get_municipality_url") :
    handle_call_tool env name args =
      ([], [textBlock ("Unknown tool: " ++ name)]) := by
  simp [handle_call_tool, dispatch_tool, h1, h2, h3, h4, h5, h6, h7, wrapErrors]

/-- C6, witness at an unregistered tool name. -/
theorem unknown_tool_inert_witness :
    handle_call_tool envDown "frobnicate" [] =
      ([], [textBlock "Unknown tool: frobnicate"]) :=
  unknown_tool_inert envDown "frobnicate" [] (by decide) (by decide)
    (by decide) (by decide) (by decide) (by decide) (by decide)

/-- C7: `get_code_structure` behaves with an absent `node_id` exactly as
with `node_id="10121"`; `get_code_section` has no default — an absent
`node_id` raises a `KeyError` before any remote call, and a supplied node
id is passed verbatim to the content fetch. -/
theorem node_id_default_and_mandatory :
    (∀ (env : Env) (nm st : String),
      handle_call_tool env "get_code_structure"
        [("municipality_name", .str nm), ("state_abbr", .str st)] =
      handle_call_tool env "get_code_structure"
        [("municipality_name", .str nm), ("state_abbr", .str st),
         ("node_id", .str "10121")]) ∧
    (∀ (env : Env) (nm st : String),
      handle_call_tool env "get_code_section"
        [("municipality_name", .str nm), ("state_abbr", .str st)] =
      ([], [textBlock ("Error: " ++ keyErrMsg "node_id")])) ∧
    ∀ (env : Env) (nm st : String) (z ci cid cc p jid pid : JValue)
      (ps : List JValue),
      env (MunicodeClient.get_client_by_name (.str nm) (strUpper st)) = .ok ci →
      pyGet1 ci "ClientID" = .ok cid → cid.truthy = true →
      env (MunicodeClient.get_client_content cid) = .ok cc →
      pyIter cc = .ok ps → firstCodeProduct ps = .ok (some p) →
      pyGet1 p "Id" = .ok jid → pyGet1 p "ProductID" = .ok pid →
      (handle_call_tool env "get_code_section"
        [("municipality_name", .str nm), ("state_abbr", .str st),
         ("node_id", z)]).1 =
      [MunicodeClient.get_client_by_name (.str nm) (strUpper st),
       MunicodeClient.get_client_content cid,
       MunicodeClient.get_codes_content jid pid z] := by
  refine ⟨fun _ _ _ => rfl, fun _ _ _ => rfl, ?_⟩
  intro env nm st z ci cid cc p jid pid ps h1 h2 h3 h4 h5 h6 h7 h8
  rw [handle_gsec_eval, wrapErrors_fst]
  exact gsec_chain_trace z h1 h2 h3 h4 h5 h6 h7 h8

/-- C7, witness: a concrete `get_code_section` call passes the supplied
node id `"42"` verbatim to the content fetch. -/
theorem node_id_default_and_mandatory_witness :
    (handle_call_tool envHappy "get_code_section"
      [("municipality_name", .str "Norfolk"), ("state_abbr", .str "VA"),
       ("node_id", .str "42")]).1 =
      [MunicodeClient.get_client_by_name (.str "Norfolk") "VA",
       MunicodeClient.get_client_content (.num 100),
       MunicodeClient.get_codes_content (.num 5) (.num 7) (.str "42")] :=
  node_id_default_and_mandatory.2.2 envHappy "Norfolk" "VA" (.str "42")
    (.obj [("ClientID", .num 100)]) (.num 100)
    (.arr [productAtlas, productOrdinances, productBuilding])
    productOrdinances (.num 5) (.num 7)
    [productAtlas, productOrdinances, productBuilding]
    rfl rfl rfl (by rfl) rfl (by rfl) rfl rfl

/-- C8: a lookup record whose `ClientID` field is present but falsy (the
dispatch checks truthiness, not presence) is treated as not found:
`get_municipality_info` skips the product fetch and returns only the raw
lookup result, and the three dependent tools take the not-found branch. -/
theorem falsy_client_id_not_found (env : Env) (nm st : String)
    (z q cid : JValue) (fs : List (String × JValue))
    (h1 : env (MunicodeClient.get_client_by_name (.str nm) (strUpper st)) =
      .ok (.obj fs))
    (h2 : fs.lookup "ClientID" = some cid)
    (h3 : cid.truthy = false) :
    handle_call_tool env "get_municipality_info"
        [("municipality_name", .str nm), ("state_abbr", .str st)] =
      ([MunicodeClient.get_client_by_name (.str nm) (strUpper st)],
       [textBlock (json_dumps (.obj [("client_info", .obj fs)]))]) ∧
    handle_call_tool env "get_code_structure"
        [("municipality_name", .str nm), ("state_abbr", .str st)] =
      ([MunicodeClient.get_client_by_name (.str nm) (strUpper st)],
       [textBlock (notFoundText (.str nm) (strUpper st))]) ∧
    handle_call_tool env "get_code_section"
        [("municipality_name", .str nm), ("state_abbr", .str st), ("node_id", z)] =
      ([MunicodeClient.get_client_by_name (.str nm) (strUpper st)],
       [textBlock (notFoundText (.str nm) (strUpper st))]) ∧
    handle_call_tool env "search_municipal_codes"
        [("municipality_name", .str nm), ("state_abbr", .str st), ("search_query", q)] =
      ([MunicodeClient.get_client_by_name (.str nm) (strUpper st)],
       [textBlock (notFoundText (.str nm) (strUpper st))]) := by
  have h2' : pyGet1 (.obj fs) "ClientID" = .ok cid := by simp [pyGet1, h2]
  refine ⟨?_, ?_, ?_, ?_⟩
  · rw [handle_gmi_eval, gmi_chain_skip h1 h2' h3]
    rfl
  · rw [handle_gcs_eval, gcs_chain_notfound _ h1 h2' h3]
    rfl
  · rw [handle_gsec_eval, gsec_chain_notfound _ h1 h2' h3]
    rfl
  · rw [handle_search_eval, search_chain_notfound _ _ _ _ h1 h2' h3]
    rfl

/-- C8, witness at `ClientID = 0`: the product fetch is skipped and only
the raw lookup result is returned. -/
theorem falsy_client_id_not_found_witness :
    handle_call_tool envZeroClient "get_municipality_info"
      [("municipality_name", .str "Norfolk"), ("state_abbr", .str "VA")] =
    ([MunicodeClient.get_client_by_name (.str "Norfolk") "VA"],
     [textBlock (json_dumps (.obj [("client_info",
        .obj [("ClientID", .num 0)])]))]) :=
  (falsy_client_id_not_found envZeroClient "Norfolk" "VA"
    (.str "10121") (.str "zoning") (.num 0) [("ClientID", .num 0)]
    rfl rfl rfl).1

/-- C9: every tool taking `state_abbr` is invariant under its letter
case — the network-backed tools uppercase it before building the request
and the response text, and `get_municipality_url` lowercases it for the
URL and uppercases it for the display line — so two invocations differing
only in the casing of `state_abbr` have identical traces and responses. -/
theorem state_abbr_case_invariant (env : Env) (s1 s2 nm : String)
    (z q : JValue)
    (hU : strUpper s1 = strUpper s2) (hL : strLower s1 = strLower s2) :
    handle_call_tool env "get_states_info" [("state_abbr", .str s1)] =
      handle_call_tool env "get_states_info" [("state_abbr", .str s2)] ∧
    handle_call_tool env "list_municipalities" [("state_abbr", .str s1)] =
      handle_call_tool env "list_municipalities" [("state_abbr", .str s2)] ∧
    handle_call_tool env "get_municipality_info"
        [("municipality_name", .str nm), ("state_abbr", .str s1)] =
      handle_call_tool env "get_municipality_info"
        [("municipality_name", .str nm), ("state_abbr", .str s2)] ∧
    handle_call_tool env "get_code_structure"
        [("municipality_name", .str nm), ("state_abbr", .str s1)] =
      handle_call_tool env "get_code_structure"
        [("municipality_name", .str nm), ("state_abbr", .str s2)] ∧
    handle_call_tool env "get_code_section"
        [("municipality_name", .str nm), ("state_abbr", .str s1), ("node_id", z)] =
      handle_call_tool env "get_code_section"
        [("municipality_name", .str nm), ("state_abbr", .str s2), ("node_id", z)] ∧
    handle_call_tool env "search_municipal_codes"
        [("municipality_name", .str nm), ("state_abbr", .str s1), ("search_query", q)] =
      handle_call_tool env "search_municipal_codes"
        [("municipality_name", .str nm), ("state_abbr", .str s2), ("search_query", q)] ∧
    handle_call_tool env "get_municipality_url"
        [("municipality_name", .str nm), ("state_abbr", .str s1)] =
      handle_call_tool env "get_municipality_url"
        [("municipality_name", .str nm), ("state_abbr", .str s2)] := by
  refine ⟨?_, ?_, ?_, ?_, ?_, ?_, ?_⟩
  · rw [handle_gsi_eval, handle_gsi_eval, hU]
  · rw [handle_glm_eval, handle_glm_eval, hU]
  · rw [handle_gmi_eval, handle_gmi_eval, hU]
  · rw [handle_gcs_eval, handle_gcs_eval, hU]
  · rw [handle_gsec_eval, handle_gsec_eval, hU]
  · rw [handle_search_eval, handle_search_eval, hU]
  · rw [handle_url_eval, handle_url_eval, hL]

/-- C9, witness: `"va"` and `"VA"` produce the same `get_states_info`
invocation. -/
theorem state_abbr_case_invariant_witness :
    handle_call_tool envDown "get_states_info" [("state_abbr", .str "va")] =
      handle_call_tool envDown "get_states_info" [("state_abbr", .str "VA")] :=
  (state_abbr_case_invariant envDown "va" "VA" "Norfolk" (.str "1")
    (.str "q") rfl rfl).1

/-- C10: for every tool name, argument mapping and remote environment,
`handle_call_tool` returns exactly one text content block — every branch,
including the unknown-tool branch and the exception handler, builds a
single-element `type="text"` list. -/
theorem single_text_block_always (env : Env) (name : String)
    (args : List (String × JValue)) :
    ∃ s, (handle_call_tool env name args).2 = [textBlock s] := by
  rcases hd : dispatch_tool env name args with ⟨t, r⟩
  rcases r with e | res
  · exact ⟨"Error: " ++ e, by simp [handle_call_tool, hd, wrapErrors]⟩
  · obtain ⟨s, hs⟩ := dispatch_tool_single env name args t res hd
    exact ⟨s, by simp [handle_call_tool, hd, wrapErrors, hs]⟩

end Municode
